import Mathlib

/-
Verification development for the queue-dashboard client
(src/app/queues/matrix/queue-matrix-content.tsx and
src/app/queues/matrix/[queueId]/page.tsx).

JavaScript strings are modelled as lists of characters (JStr).  Dates are
modelled as integers counting days since 1970-01-01; the date-fns calls
subDays and format(-, "yyyy-MM-dd") become integer subtraction and a
civil-calendar formatter.  Each React event handler or fetch settlement
becomes a pure function from the component state (and the environment
inputs it reads, such as the current date or the fetch outcome) to the new
state together with the toast it raises and the network request it issues.
-/

abbrev JStr := List Char

/-- Character-wise lower casing, modelling String.prototype.toLowerCase on
the identifier alphabet the dashboard uses. -/
def toLowerList (s : JStr) : JStr := s.map Char.toLower

/-- listStartsWith hay pat: hay begins with pat (helper for jsIncludes). -/
def listStartsWith : JStr → JStr → Bool
  | _, [] => true
  | [], _ :: _ => false
  | a :: as, b :: bs => a == b && listStartsWith as bs

/-- jsIncludes hay pat models String.prototype.includes: pat occurs as a
contiguous substring of hay. -/
def jsIncludes : JStr → JStr → Bool
  | [], pat => pat.isEmpty
  | a :: t, pat => listStartsWith (a :: t) pat || jsIncludes t pat

/-- One aggregate row of the queue summary dataset (interface QueueData in
both source files); every field arrives as a string. -/
structure QueueData where
  queue_id : JStr
  channel : JStr
  initiation_method : JStr
  received : JStr
  answered : JStr
  unanswered : JStr
  abandoned : JStr
  transferred : JStr
  avg_wait_s : JStr
  avg_talk : JStr
  max_callers : JStr
  pct_answered : JStr
  pct_unanswered : JStr
  sla : JStr
  deriving DecidableEq

/-- One call record of the per-queue detail dataset (interface
QueueDetailData in the detail page). -/
structure QueueDetailData where
  row_no : JStr
  contact_id : JStr
  agent : JStr
  date : JStr
  queue : JStr
  number : JStr
  event : JStr
  ring_time : JStr
  wait_time : JStr
  talk_time : JStr
  DID : JStr
  deriving DecidableEq

/-- The transport envelope (interface APIResponse) returned by the query
endpoint. -/
structure APIResponse (T : Type) where
  queryExecutionId : JStr
  status : JStr
  executionTime : Nat
  data : List T
  columns : List JStr
  rowCount : Nat
  deriving DecidableEq

/-- The JSON body POSTed to the query endpoint.  Fields the source omits
from the object literal are none. -/
structure RequestBody where
  preparedStatement : JStr
  parameters : Option (List JStr)
  startDate : Option JStr
  endDate : Option JStr
  waitForResults : Bool
  maxWaitTime : Nat
  deriving DecidableEq

/-- A toast raised through useToast; destructive marks the error variant. -/
structure Toast where
  destructive : Bool
  title : JStr
  description : JStr
  deriving DecidableEq

/-- Result of running one handler or settlement: the next component state,
the toast it raises (if any), and the network request it issues (if any). -/
structure StepOut (σ : Type) where
  state : σ
  toast : Option Toast
  request : Option RequestBody
  deriving DecidableEq

/-- How a fetch settles, as observed by the try/catch in the source: a
parsed 2xx response, a non-2xx status (statusText), a network failure, or
a JSON parse failure.  The two exception cases carry the Error message. -/
inductive FetchOutcome (T : Type) where
  | ok (resp : APIResponse T)
  | httpError (statusText : JStr)
  | netError (msg : JStr)
  | jsonError (msg : JStr)
  deriving DecidableEq

def FetchOutcome.isFailure {T : Type} : FetchOutcome T → Bool
  | .ok _ => false
  | _ => true

/-- The description string of the catch-block toast:
error instanceof Error ? error.message : "Unknown error", where the HTTP
branch throws new Error with message "API error: " + statusText. -/
def errMessage {T : Type} : FetchOutcome T → JStr
  | .ok _ => []
  | .httpError s => "API error: ".data ++ s
  | .netError m => m
  | .jsonError m => m

/- ----------------------------------------------------------------- dates -/

/-- A calendar day, counted in days since 1970-01-01 (a JS Date at the
granularity the code uses: date-fns subDays and yyyy-MM-dd formatting). -/
abbrev Day := Int

/-- date-fns subDays. -/
def subDays (d : Day) (n : Nat) : Day := d - (n : Int)

/-- Civil date (year, month, day) from a day count, for the dates the
dashboard can represent (days ≥ -719468, i.e. year ≥ 0). -/
def civilFromDays (d : Day) : Nat × Nat × Nat :=
  let z := (d + 719468).toNat
  let era := z / 146097
  let doe := z % 146097
  let yoe := (doe - doe / 1460 + doe / 36524 - doe / 146096) / 365
  let doy := doe - (365 * yoe + yoe / 4 - yoe / 100)
  let mp := (5 * doy + 2) / 153
  let day := doy - (153 * mp + 2) / 5 + 1
  let m := if mp < 10 then mp + 3 else mp - 9
  let y := yoe + era * 400
  (if m ≤ 2 then y + 1 else y, m, day)

/-- Decimal digits of a Nat, most significant first (fuel-based so that it
reduces definitionally). -/
def digitsAux : Nat → Nat → JStr → JStr
  | 0, _, acc => acc
  | fuel + 1, n, acc =>
    if n < 10 then Char.ofNat (48 + n) :: acc
    else digitsAux fuel (n / 10) (Char.ofNat (48 + n % 10) :: acc)

def natToChars (n : Nat) : JStr := digitsAux (n + 1) n []

def padTo (w : Nat) (s : JStr) : JStr := List.replicate (w - s.length) '0' ++ s

/-- format(d, "yyyy-MM-dd") of date-fns. -/
def formatYMD (d : Day) : JStr :=
  let c := civilFromDays d
  padTo 4 (natToChars c.1) ++ '-' :: padTo 2 (natToChars c.2.1)
    ++ '-' :: padTo 2 (natToChars c.2.2)

example : formatYMD 0 = "1970-01-01".data := by decide
example : formatYMD 20737 = "2026-10-11".data := by decide
example : formatYMD 20707 = "2026-09-11".data := by decide
example : formatYMD 19723 = "2024-01-01".data := by decide
example : formatYMD 11016 = "2000-02-29".data := by decide

/- ------------------------------------------------- URL encoding helpers -/

/-- Upper-case hexadecimal digit (applied only to values below 16). -/
def hexDigit (n : Nat) : Char :=
  if n < 10 then Char.ofNat (48 + n) else Char.ofNat (55 + n)

/-- Percent-escape of one byte: a percent sign and two hex digits. -/
def percentByte (b : Nat) : JStr := ['%', hexDigit (b / 16), hexDigit (b % 16)]

/-- UTF-8 bytes of a character (arithmetic form of the standard rules). -/
def utf8Bytes (c : Char) : List Nat :=
  let n := c.toNat
  if n < 128 then [n]
  else if n < 2048 then [192 + n / 64, 128 + n % 64]
  else if n < 65536 then [224 + n / 4096, 128 + n / 64 % 64, 128 + n % 64]
  else [240 + n / 262144, 128 + n / 4096 % 64, 128 + n / 64 % 64, 128 + n % 64]

/-- The characters encodeURIComponent leaves unescaped: ASCII letters,
digits, and - _ . ! ~ * ( ) and the single quote (codes 45 95 46 33 126
42 40 41 39). -/
def uriUnreserved (c : Char) : Bool :=
  let n := c.toNat
  (65 ≤ n && n ≤ 90) || (97 ≤ n && n ≤ 122) || (48 ≤ n && n ≤ 57) ||
  n == 45 || n == 95 || n == 46 || n == 33 || n == 126 ||
  n == 42 || n == 40 || n == 41 || n == 39

/-- encodeURIComponent: unreserved characters kept, all others replaced by
the percent-escapes of their UTF-8 bytes. -/
def encodeURIComponent (s : JStr) : JStr :=
  (s.map fun c =>
    if uriUnreserved c then [c] else ((utf8Bytes c).map percentByte).flatten).flatten

/-- The characters URLSearchParams.toString leaves unescaped: ASCII
letters, digits, and * - . _ (codes 42 45 46 95). -/
def formUnreserved (c : Char) : Bool :=
  let n := c.toNat
  (65 ≤ n && n ≤ 90) || (97 ≤ n && n ≤ 122) || (48 ≤ n && n ≤ 57) ||
  n == 42 || n == 45 || n == 46 || n == 95

/-- application/x-www-form-urlencoded serialization of one string: space
becomes a plus sign, unreserved characters are kept, the rest are
percent-escaped UTF-8 bytes. -/
def formEncode (s : JStr) : JStr :=
  (s.map fun c =>
    if c == ' ' then ['+']
    else if formUnreserved c then [c]
    else ((utf8Bytes c).map percentByte).flatten).flatten

/-- URLSearchParams.toString: key=value pairs joined by ampersands. -/
def formEncodePairs : List (JStr × JStr) → JStr
  | [] => []
  | [(k, v)] => formEncode k ++ '=' :: formEncode v
  | (k, v) :: p :: rest =>
    formEncode k ++ '=' :: formEncode v ++ '&' :: formEncodePairs (p :: rest)

/- ------------------------------------------------- the Queue Summary View -/

/-- The state of QueueMatrixContent: held rows, loading flag, search term,
and the two optional picked dates. -/
structure SummaryState where
  queueData : List QueueData
  isLoadingQueues : Bool
  searchTerm : JStr
  startDate : Option Day
  endDate : Option Day
  deriving DecidableEq

/-- The state created on mount: empty rows, not loading, empty search,
startDate = subDays(new Date(), 30), endDate = new Date(). -/
def initialSummaryState (today : Day) : SummaryState :=
  { queueData := []
    isLoadingQueues := false
    searchTerm := []
    startDate := some (subDays today 30)
    endDate := some today }

/-- The request body built inside fetchQueueData of the summary view:
preparedStatement "prep_distbyqueue", waitForResults true, maxWaitTime 60,
and startDate / endDate fields added exactly when the corresponding state
date exists, formatted yyyy-MM-dd. -/
def summaryBody (sd ed : Option Day) : RequestBody :=
  { preparedStatement := "prep_distbyqueue".data
    parameters := none
    startDate := sd.map formatYMD
    endDate := ed.map formatYMD
    waitForResults := true
    maxWaitTime := 60 }

/-- Issuance half of the summary fetchQueueData: set the loading flag and
POST the body built from the dates the closure reads. -/
def summaryIssue (st : SummaryState) : StepOut SummaryState :=
  { state := { st with isLoadingQueues := true }
    toast := none
    request := some (summaryBody st.startDate st.endDate) }

/-- The success-path toast: "Data loaded successfully" with a description
showing rowCount and pluralizing queue. -/
def successToast (rowCount : Nat) : Toast :=
  { destructive := false
    title := "Data loaded successfully".data
    description := "Showing ".data ++ natToChars rowCount ++ " queue".data
      ++ (if rowCount != 1 then ['s'] else []) }

/-- Settlement half of the summary fetchQueueData: on a parsed 2xx
response replace queueData with result.data and toast success; on any
failure leave queueData alone and toast the destructive
"Failed to load queue data" message; either way the finally block clears
the loading flag.  No settlement issues a request (no retry). -/
def summarySettle (st : SummaryState) (o : FetchOutcome QueueData) :
    StepOut SummaryState :=
  match o with
  | .ok r =>
    { state := { st with queueData := r.data, isLoadingQueues := false }
      toast := some (successToast r.rowCount)
      request := none }
  | _ =>
    { state := { st with isLoadingQueues := false }
      toast := some { destructive := true
                      title := "Failed to load queue data".data
                      description := errMessage o }
      request := none }

/-- The search-box onChange handler: it only replaces searchTerm. -/
def handleSearchChange (st : SummaryState) (s : JStr) :
    StepOut SummaryState :=
  { state := { st with searchTerm := s }, toast := none, request := none }

/-- filteredQueues, the visible row set: queueData.filter(queue =>
queue.queue_id.toLowerCase().includes(searchTerm.toLowerCase())). -/
def filteredQueues (st : SummaryState) : List QueueData :=
  st.queueData.filter fun q =>
    jsIncludes (toLowerList q.queue_id) (toLowerList st.searchTerm)

/-- The query-parameter list built by handleViewDetails: startDate set
first when present, then endDate when present, both yyyy-MM-dd. -/
def dateParams (st : SummaryState) : List (JStr × JStr) :=
  (match st.startDate with
   | some d => [("startDate".data, formatYMD d)]
   | none => []) ++
  (match st.endDate with
   | some d => [("endDate".data, formatYMD d)]
   | none => [])

/-- The address pushed by handleViewDetails (reached both from the
queue-id cell click and from the View Details button):
/queues/matrix/${encodeURIComponent(queueId)}?${params.toString()}. -/
def handleViewDetailsUrl (st : SummaryState) (queueId : JStr) : JStr :=
  "/queues/matrix/".data ++ encodeURIComponent queueId
    ++ '?' :: formEncodePairs (dateParams st)

/-- handleApplyFilter simply re-runs fetchQueueData with the current
bounds. -/
def handleApplyFilter (st : SummaryState) : StepOut SummaryState :=
  summaryIssue st

/-- handleResetFilter: setStartDate(subDays(new Date(), 30));
setEndDate(new Date()); setTimeout(() => fetchQueueData(), 0).
The state two setters install holds the default window, but the deferred
call invokes the fetchQueueData closure of the render in which the click
ran, and that closure reads the startDate and endDate bindings of that
same render — the pre-reset values.  React state setters do not rebind
the captured variables, so the issued body is built from the old bounds. -/
def handleResetFilter (st : SummaryState) (today : Day) :
    StepOut SummaryState :=
  { state := { st with startDate := some (subDays today 30)
                       endDate := some today
                       isLoadingQueues := true }
    toast := none
    request := some (summaryBody st.startDate st.endDate) }

/-- setQuickRange(days): setStartDate(subDays(new Date(), days));
setEndDate(new Date()).  One synchronous handler updates both bounds and
issues nothing. -/
def setQuickRange (days : Nat) (st : SummaryState) (today : Day) :
    StepOut SummaryState :=
  { state := { st with startDate := some (subDays today days)
                       endDate := some today }
    toast := none
    request := none }

/- -------------------------------------------------- the Queue Detail View -/

/-- The state of QueueDetailsPage: the queue identifier read from the
navigation path, the found summary row (or null), the call records, and
the two independent loading flags. -/
structure DetailState where
  queueId : JStr
  queueData : Option QueueData
  detailData : List QueueDetailData
  isLoadingQueue : Bool
  isLoadingDetails : Bool
  deriving DecidableEq

/-- The body of the aggregate fetch in the detail page: a fixed object
literal with preparedStatement "prep_distbyqueue", waitForResults true and
maxWaitTime 60 — it contains no parameters and no startDate or endDate
fields. -/
def detailAggBody : RequestBody :=
  { preparedStatement := "prep_distbyqueue".data
    parameters := none
    startDate := none
    endDate := none
    waitForResults := true
    maxWaitTime := 60 }

/-- The body of the call-record fetch in the detail page:
preparedStatement "prep_distbyqueue_dd" with parameters [queueId],
waitForResults true, maxWaitTime 60. -/
def detailRecBody (queueId : JStr) : RequestBody :=
  { preparedStatement := "prep_distbyqueue_dd".data
    parameters := some [queueId]
    startDate := none
    endDate := none
    waitForResults := true
    maxWaitTime := 60 }

/-- Issuance half of the aggregate fetch of the detail page. -/
def detailAggIssue (st : DetailState) : StepOut DetailState :=
  { state := { st with isLoadingQueue := true }
    toast := none
    request := some detailAggBody }

/-- Issuance half of the call-record fetch of the detail page. -/
def detailRecIssue (st : DetailState) : StepOut DetailState :=
  { state := { st with isLoadingDetails := true }
    toast := none
    request := some (detailRecBody st.queueId) }

/-- Settlement of the aggregate fetch of the detail page.  qid is the
queue identifier its closure captured at issuance.  On success the held
row becomes result.data.find(q => q.queue_id === queueId) || null and no
toast is raised (a missing row is not an error); on failure the held row
is untouched and the destructive "Failed to load queue data" toast is
raised.  The finally block clears isLoadingQueue on every path. -/
def detailAggSettle (qid : JStr) (st : DetailState)
    (o : FetchOutcome QueueData) : StepOut DetailState :=
  match o with
  | .ok r =>
    { state := { st with
        queueData := r.data.find? fun q => q.queue_id == qid
        isLoadingQueue := false }
      toast := none
      request := none }
  | _ =>
    { state := { st with isLoadingQueue := false }
      toast := some { destructive := true
                      title := "Failed to load queue data".data
                      description := errMessage o }
      request := none }

/-- Settlement of the call-record fetch of the detail page: on success
detailData becomes result.data, on failure it is untouched and the
destructive "Failed to load queue details" toast is raised; finally
clears isLoadingDetails. -/
def detailRecSettle (st : DetailState) (o : FetchOutcome QueueDetailData) :
    StepOut DetailState :=
  match o with
  | .ok r =>
    { state := { st with detailData := r.data, isLoadingDetails := false }
      toast := none
      request := none }
  | _ =>
    { state := { st with isLoadingDetails := false }
      toast := some { destructive := true
                      title := "Failed to load queue details".data
                      description := errMessage o }
      request := none }

/-- What the summary-tile section of the detail page shows. -/
inductive SummaryRender where
  | loading
  | tiles (q : QueueData)
  | notFound
  deriving DecidableEq

/-- The render branch of the summary card: isLoadingQueue ? spinner :
queueData ? tiles : "Queue not found". -/
def renderSummarySection (st : DetailState) : SummaryRender :=
  if st.isLoadingQueue then .loading
  else match st.queueData with
       | some q => .tiles q
       | none => .notFound

/- ------------------------- trace model of the detail page across events -/

/-- The detail page together with its outstanding fetches.  pendingAgg and
pendingRec record the queue identifiers captured by the closures of the
aggregate and record fetches still in flight (the client never cancels a
request). -/
structure DetailSys where
  view : DetailState
  pendingAgg : List JStr
  pendingRec : List JStr
  deriving DecidableEq

/-- Mounting the page at path identifier q: both effects run, set their
loading flags and issue their fetches. -/
def initDetail (q : JStr) : DetailSys :=
  { view := { queueId := q
              queueData := none
              detailData := []
              isLoadingQueue := true
              isLoadingDetails := true }
    pendingAgg := [q]
    pendingRec := [q] }

/-- Events the environment can deliver to the detail page: a client-side
navigation to another queue identifier (both effects re-run for the new
identifier), or the settlement of one outstanding fetch, identified by
the queue identifier its closure captured. -/
inductive DetailEvent where
  | navigate (q : JStr)
  | settleAgg (reqId : JStr) (o : FetchOutcome QueueData)
  | settleRec (reqId : JStr) (o : FetchOutcome QueueDetailData)
  deriving DecidableEq

/-- One event step.  A settlement only fires for a request actually in
flight; it applies the settlement function of the source with the
identifier its closure captured and removes the request from the pending
list. -/
def stepDetail (s : DetailSys) : DetailEvent → DetailSys
  | .navigate q =>
    { view := { s.view with queueId := q
                            isLoadingQueue := true
                            isLoadingDetails := true }
      pendingAgg := s.pendingAgg ++ [q]
      pendingRec := s.pendingRec ++ [q] }
  | .settleAgg reqId o =>
    if reqId ∈ s.pendingAgg then
      { view := (detailAggSettle reqId s.view o).state
        pendingAgg := s.pendingAgg.erase reqId
        pendingRec := s.pendingRec }
    else s
  | .settleRec reqId o =>
    if reqId ∈ s.pendingRec then
      { view := (detailRecSettle s.view o).state
        pendingAgg := s.pendingAgg
        pendingRec := s.pendingRec.erase reqId }
    else s

/-- Running a sequence of events from a system state. -/
def runDetail (s : DetailSys) (es : List DetailEvent) : DetailSys :=
  es.foldl stepDetail s

/- ------------------------------------------- substring characterization -/

theorem listStartsWith_iff (pat xs : JStr) :
    listStartsWith xs pat = true ↔ ∃ rest, xs = pat ++ rest := by
  induction pat generalizing xs with
  | nil => simp [listStartsWith]
  | cons b bs ih =>
    cases xs with
    | nil => simp [listStartsWith]
    | cons a as =>
      rw [listStartsWith, Bool.and_eq_true, beq_iff_eq, ih]
      constructor
      · rintro ⟨rfl, rest, rfl⟩
        exact ⟨rest, rfl⟩
      · rintro ⟨rest, h⟩
        rw [List.cons_append] at h
        cases h
        exact ⟨rfl, rest, rfl⟩

theorem jsIncludes_iff (hay pat : JStr) :
    jsIncludes hay pat = true ↔ ∃ pre post, hay = pre ++ pat ++ post := by
  induction hay with
  | nil =>
    rw [jsIncludes, List.isEmpty_iff]
    constructor
    · rintro rfl
      exact ⟨[], [], rfl⟩
    · rintro ⟨pre, post, h⟩
      rcases List.append_eq_nil.mp h.symm with ⟨h1, h2⟩
      exact (List.append_eq_nil.mp h1).2
  | cons a t ih =>
    rw [jsIncludes, Bool.or_eq_true, listStartsWith_iff, ih]
    constructor
    · rintro (⟨rest, h⟩ | ⟨pre, post, h⟩)
      · exact ⟨[], rest, by simpa using h⟩
      · exact ⟨a :: pre, post, by simp [h]⟩
    · rintro ⟨pre, post, h⟩
      cases pre with
      | nil => exact Or.inl ⟨post, by simpa using h⟩
      | cons p ps =>
        rw [List.cons_append, List.cons_append] at h
        cases h
        exact Or.inr ⟨ps, post, rfl⟩

/-- C1: in the Queue Summary View, typing into the search box issues no
network request, the visible row set filteredQueues is exactly the subset
of the held rows whose queue_id contains the search string as a
case-insensitive substring, and the empty search string shows the full
held collection. -/
theorem summary_filter_spec (st : SummaryState) (s : JStr) :
    (handleSearchChange st s).request = none ∧
    (handleSearchChange st s).state.queueData = st.queueData ∧
    (∀ q, q ∈ filteredQueues (handleSearchChange st s).state ↔
      q ∈ st.queueData ∧
      ∃ pre post, toLowerList q.queue_id = pre ++ toLowerList s ++ post) ∧
    (s = [] → filteredQueues (handleSearchChange st s).state = st.queueData) := by
  refine ⟨rfl, rfl, ?_, ?_⟩
  · intro q
    rw [filteredQueues, List.mem_filter]
    show _ ∧ jsIncludes (toLowerList q.queue_id) (toLowerList s) = true ↔ _
    rw [jsIncludes_iff]
    exact Iff.rfl
  · rintro rfl
    rw [filteredQueues]
    apply List.filter_eq_self.mpr
    intro q _
    show jsIncludes (toLowerList q.queue_id) (toLowerList []) = true
    exact (jsIncludes_iff _ _).mpr ⟨[], toLowerList q.queue_id, by simp [toLowerList]⟩

/-- A sample queue row used in concrete checks. -/
def qRow1 : QueueData :=
  { queue_id := "Q1".data, channel := "VOICE".data
    initiation_method := "INBOUND".data, received := "10".data
    answered := "8".data, unanswered := "2".data, abandoned := "2".data
    transferred := "0".data, avg_wait_s := "12".data, avg_talk := "180".data
    max_callers := "3".data, pct_answered := "80%".data
    pct_unanswered := "20%".data, sla := "95%".data }

/-- A second sample queue row. -/
def qRow2 : QueueData :=
  { qRow1 with queue_id := "Q2".data, received := "5".data }

/-- A sample summary state holding two rows, with the default window of
2026-10-11 (days 20707 through 20737). -/
def stW : SummaryState :=
  { queueData := [qRow1, qRow2], isLoadingQueues := false, searchTerm := []
    startDate := some 20707, endDate := some 20737 }

theorem summary_filter_spec_check :
    filteredQueues (handleSearchChange stW []).state = stW.queueData ∧
    (qRow1 ∈ filteredQueues (handleSearchChange stW "q1".data).state ↔
      qRow1 ∈ stW.queueData ∧
      ∃ pre post,
        toLowerList qRow1.queue_id = pre ++ toLowerList "q1".data ++ post) :=
  ⟨(summary_filter_spec stW []).2.2.2 rfl,
   (summary_filter_spec stW "q1".data).2.2.1 qRow1⟩

/-- C2 counterexample: with the default window of 2026-10-11 active, the
navigation address encodes startDate=2026-09-11 and endDate=2026-10-11,
and the summary aggregate request carries those bounds, but the detail
view aggregate request carries no startDate or endDate at all, hence it
is not identical in shape to the summary request and does not carry the
bounds encoded in the address. -/
theorem detail_request_drops_dates :
    handleViewDetailsUrl stW "Q1".data =
      "/queues/matrix/Q1?startDate=2026-09-11&endDate=2026-10-11".data ∧
    (summaryBody stW.startDate stW.endDate).startDate =
      some ("2026-09-11".data) ∧
    (summaryBody stW.startDate stW.endDate).endDate =
      some ("2026-10-11".data) ∧
    detailAggBody.startDate = none ∧
    detailAggBody.endDate = none ∧
    detailAggBody ≠ summaryBody stW.startDate stW.endDate := by
  decide

/-- C2 amended: the summary view encodes the active startDate and endDate
as query parameters of the detail address, but the Queue Detail View
ignores them: its aggregate-statement request is a fixed body that agrees
with the summary request in preparedStatement, waitForResults and
maxWaitTime and never carries startDate or endDate bounds, whatever the
navigation address encoded. -/
theorem detail_request_fixed_spec (st : SummaryState) (dt : DetailState) :
    (detailAggIssue dt).request = some detailAggBody ∧
    detailAggBody.preparedStatement =
      (summaryBody st.startDate st.endDate).preparedStatement ∧
    detailAggBody.waitForResults =
      (summaryBody st.startDate st.endDate).waitForResults ∧
    detailAggBody.maxWaitTime =
      (summaryBody st.startDate st.endDate).maxWaitTime ∧
    detailAggBody.startDate = none ∧
    detailAggBody.endDate = none :=
  ⟨rfl, rfl, rfl, rfl, rfl, rfl⟩

/-- A summary state whose window was moved to 2026-01-01 .. 2026-01-07
(days 20454 .. 20460) before the reset action runs. -/
def stResetW : SummaryState :=
  { queueData := [], isLoadingQueues := false, searchTerm := []
    startDate := some 20454, endDate := some 20460 }

/-- C3: evaluation of handleResetFilter at the failing input.  Pressing
Reset on 2026-10-11 with the window at 2026-01-01 .. 2026-01-07 does
restore the default bounds in the state (days 20707 and 20737), but the
deferred fetch runs the stale fetchQueueData closure of the pre-reset
render, so the issued request carries startDate=2026-01-01 and
endDate=2026-01-07, not the restored defaults — contradicting the claim
that the re-issued request carries the restored default bounds. -/
theorem reset_filter_stale_request :
    (handleResetFilter stResetW 20737).state.startDate = some 20707 ∧
    (handleResetFilter stResetW 20737).state.endDate = some 20737 ∧
    (handleResetFilter stResetW 20737).request =
      some (summaryBody (some 20454) (some 20460)) ∧
    (summaryBody (some 20454) (some 20460)).startDate =
      some ("2026-01-01".data) ∧
    (summaryBody (some 20454) (some 20460)).endDate =
      some ("2026-01-07".data) ∧
    (summaryBody (some 20707) (some 20737)).startDate =
      some ("2026-09-11".data) ∧
    (handleResetFilter stResetW 20737).request ≠
      some (summaryBody (some 20707) (some 20737)) := by
  decide

/-- C4: every failing settlement of the summary fetch (non-2xx status,
network error, malformed JSON) raises exactly one destructive toast whose
description is the failure reason, leaves the held row collection
untouched, issues no retry request, and clears the loading flag. -/
theorem summary_fetch_failure_spec (st : SummaryState)
    (o : FetchOutcome QueueData) (h : o.isFailure = true) :
    (summarySettle st o).state.queueData = st.queueData ∧
    (summarySettle st o).toast =
      some { destructive := true
             title := "Failed to load queue data".data
             description := errMessage o } ∧
    (summarySettle st o).request = none ∧
    (summarySettle st o).state.isLoadingQueues = false := by
  cases o with
  | ok r => simp [FetchOutcome.isFailure] at h
  | httpError s => exact ⟨rfl, rfl, rfl, rfl⟩
  | netError m => exact ⟨rfl, rfl, rfl, rfl⟩
  | jsonError m => exact ⟨rfl, rfl, rfl, rfl⟩

theorem summary_fetch_failure_check :
    (summarySettle stW (.httpError "Bad Gateway".data)).state.queueData =
      stW.queueData ∧
    (summarySettle stW (.httpError "Bad Gateway".data)).toast =
      some { destructive := true
             title := "Failed to load queue data".data
             description := "API error: Bad Gateway".data } ∧
    (summarySettle stW (.httpError "Bad Gateway".data)).request = none :=
  ⟨(summary_fetch_failure_spec stW (.httpError "Bad Gateway".data) rfl).1,
   by
     rw [(summary_fetch_failure_spec stW (.httpError "Bad Gateway".data)
       rfl).2.1]
     decide,
   (summary_fetch_failure_spec stW (.httpError "Bad Gateway".data)
     rfl).2.2.1⟩

/-- C5: when the aggregate response of the detail view succeeds but holds
no row whose identifier equals the path identifier, the held summary row
becomes null, no toast is raised, and with the loading flag cleared the
summary section renders the not-found state. -/
theorem detail_not_found_spec (st : DetailState) (r : APIResponse QueueData)
    (h : ∀ q ∈ r.data, q.queue_id ≠ st.queueId) :
    (detailAggSettle st.queueId st (.ok r)).state.queueData = none ∧
    (detailAggSettle st.queueId st (.ok r)).toast = none ∧
    renderSummarySection (detailAggSettle st.queueId st (.ok r)).state =
      .notFound := by
  have hfind : r.data.find? (fun q => q.queue_id == st.queueId) = none := by
    apply List.find?_eq_none.mpr
    intro q hq
    simpa using h q hq
  refine ⟨?_, rfl, ?_⟩
  · simp [detailAggSettle, hfind]
  · simp [renderSummarySection, detailAggSettle, hfind]

/-- A detail-page state mounted at path identifier Q1, both fetches in
flight. -/
def stD : DetailState :=
  { queueId := "Q1".data, queueData := none, detailData := []
    isLoadingQueue := true, isLoadingDetails := true }

/-- An aggregate response that holds only the row of queue Q2. -/
def respOnlyQ2 : APIResponse QueueData :=
  { queryExecutionId := "exec-2".data, status := "SUCCEEDED".data
    executionTime := 4, data := [qRow2]
    columns := ["queue_id".data], rowCount := 1 }

theorem detail_not_found_check :
    (∀ q ∈ respOnlyQ2.data, q.queue_id ≠ stD.queueId) ∧
    (detailAggSettle stD.queueId stD (.ok respOnlyQ2)).toast = none ∧
    renderSummarySection
      (detailAggSettle stD.queueId stD (.ok respOnlyQ2)).state = .notFound :=
  ⟨by decide,
   (detail_not_found_spec stD respOnlyQ2 (by decide)).2.1,
   (detail_not_found_spec stD respOnlyQ2 (by decide)).2.2⟩

/-- C6: each of the three fetches sets its own loading flag at issuance
and every settlement path, success and failure alike, clears it. -/
theorem loading_flag_spec (st : SummaryState) (o : FetchOutcome QueueData)
    (dt : DetailState) (oq : FetchOutcome QueueData)
    (od : FetchOutcome QueueDetailData) (qid : JStr) :
    (summaryIssue st).state.isLoadingQueues = true ∧
    (summarySettle st o).state.isLoadingQueues = false ∧
    (detailAggIssue dt).state.isLoadingQueue = true ∧
    (detailAggSettle qid dt oq).state.isLoadingQueue = false ∧
    (detailRecIssue dt).state.isLoadingDetails = true ∧
    (detailRecSettle dt od).state.isLoadingDetails = false := by
  cases o <;> cases oq <;> cases od <;> exact ⟨rfl, rfl, rfl, rfl, rfl, rfl⟩

/-- C7: the Last 7 Days quick-select updates both bounds in the one
synchronous handler — startDate becomes exactly seven days before the
current date and endDate the current date — while touching nothing else
and issuing no request. -/
theorem quick_range_seven_spec (st : SummaryState) (today : Day) :
    (setQuickRange 7 st today).state.startDate = some (today - 7) ∧
    (setQuickRange 7 st today).state.endDate = some today ∧
    (setQuickRange 7 st today).request = none ∧
    (setQuickRange 7 st today).toast = none ∧
    (setQuickRange 7 st today).state.queueData = st.queueData ∧
    (setQuickRange 7 st today).state.searchTerm = st.searchTerm ∧
    (setQuickRange 7 st today).state.isLoadingQueues = st.isLoadingQueues :=
  ⟨rfl, rfl, rfl, rfl, rfl, rfl, rfl⟩

/-- C8: every request either view issues carries waitForResults true and
maxWaitTime 60; both aggregate requests name prep_distbyqueue, and the
record request names prep_distbyqueue_dd with the queue identifier as its
only positional parameter. -/
theorem request_shape_spec (st : SummaryState) (dt : DetailState)
    (sd ed : Option Day) (qid : JStr) :
    (summaryIssue st).request =
      some (summaryBody st.startDate st.endDate) ∧
    (detailAggIssue dt).request = some detailAggBody ∧
    (detailRecIssue dt).request = some (detailRecBody dt.queueId) ∧
    (summaryBody sd ed).waitForResults = true ∧
    (summaryBody sd ed).maxWaitTime = 60 ∧
    (summaryBody sd ed).preparedStatement = "prep_distbyqueue".data ∧
    detailAggBody.waitForResults = true ∧
    detailAggBody.maxWaitTime = 60 ∧
    detailAggBody.preparedStatement = "prep_distbyqueue".data ∧
    (detailRecBody qid).waitForResults = true ∧
    (detailRecBody qid).maxWaitTime = 60 ∧
    (detailRecBody qid).preparedStatement = "prep_distbyqueue_dd".data ∧
    (detailRecBody qid).parameters = some [qid] :=
  ⟨rfl, rfl, rfl, rfl, rfl, rfl, rfl, rfl, rfl, rfl, rfl, rfl, rfl⟩

/- -------------------------------------- anatomy of the pushed address -/

/-- The path part of an address: everything before the first question
mark. -/
def pathPart (u : JStr) : JStr := u.takeWhile fun c => c != '?'

/-- The query part of an address: everything after the first question
mark. -/
def queryPart (u : JStr) : JStr :=
  (u.dropWhile fun c => c != '?').drop 1

/-- Fold step isolating the suffix after the last slash. -/
def stepSeg (acc : JStr) (c : Char) : JStr :=
  if c == '/' then [] else acc ++ [c]

/-- The final path segment: the suffix after the last slash. -/
def lastSeg (u : JStr) : JStr := u.foldl stepSeg []

theorem char_toNat_lt (c : Char) : c.toNat < 1114112 := by
  rcases c.valid with h | ⟨_, h2⟩
  · exact Nat.lt_trans h (by norm_num)
  · exact h2

theorem utf8Bytes_lt (c : Char) : ∀ b ∈ utf8Bytes c, b < 256 := by
  intro b hb
  have hc := char_toNat_lt c
  rw [utf8Bytes] at hb
  split_ifs at hb with h1 h2 h3
  · simp at hb
    omega
  · have d1 : c.toNat / 64 < 32 := Nat.div_lt_of_lt_mul (by omega)
    have d2 : c.toNat % 64 < 64 := Nat.mod_lt _ (by omega)
    simp at hb
    rcases hb with rfl | rfl <;> omega
  · have d1 : c.toNat / 4096 < 16 := Nat.div_lt_of_lt_mul (by omega)
    have d2 : c.toNat / 64 % 64 < 64 := Nat.mod_lt _ (by omega)
    have d3 : c.toNat % 64 < 64 := Nat.mod_lt _ (by omega)
    simp at hb
    rcases hb with rfl | rfl | rfl <;> omega
  · have d1 : c.toNat / 262144 < 5 := Nat.div_lt_of_lt_mul (by omega)
    have d2 : c.toNat / 4096 % 64 < 64 := Nat.mod_lt _ (by omega)
    have d3 : c.toNat / 64 % 64 < 64 := Nat.mod_lt _ (by omega)
    have d4 : c.toNat % 64 < 64 := Nat.mod_lt _ (by omega)
    simp at hb
    rcases hb with rfl | rfl | rfl | rfl <;> omega

theorem hexDigit_ne : ∀ n < 16, hexDigit n ≠ '/' ∧ hexDigit n ≠ '?' := by
  decide

theorem percentByte_safe (b : Nat) (hb : b < 256) :
    ∀ x ∈ percentByte b, x ≠ '/' ∧ x ≠ '?' := by
  intro x hx
  have h1 : b / 16 < 16 := Nat.div_lt_of_lt_mul (by omega)
  have h2 : b % 16 < 16 := Nat.mod_lt _ (by omega)
  rw [percentByte] at hx
  simp at hx
  rcases hx with rfl | rfl | rfl
  · exact ⟨by decide, by decide⟩
  · exact hexDigit_ne _ h1
  · exact hexDigit_ne _ h2

theorem uriUnreserved_safe {c : Char} (h : uriUnreserved c = true) :
    c ≠ '/' ∧ c ≠ '?' := by
  constructor <;> rintro rfl <;> exact absurd h (by decide)

/-- No character of an encodeURIComponent output is a slash or a question
mark: the escaped identifier stays inside its path segment. -/
theorem encodeURIComponent_safe (s : JStr) :
    ∀ x ∈ encodeURIComponent s, x ≠ '/' ∧ x ≠ '?' := by
  intro x hx
  rw [encodeURIComponent, List.mem_flatten] at hx
  obtain ⟨l, hl, hxl⟩ := hx
  rw [List.mem_map] at hl
  obtain ⟨c, _, rfl⟩ := hl
  by_cases hu : uriUnreserved c
  · rw [if_pos hu] at hxl
    simp at hxl
    subst hxl
    exact uriUnreserved_safe hu
  · rw [if_neg hu, List.mem_flatten] at hxl
    obtain ⟨l2, hl2, hxl2⟩ := hxl
    rw [List.mem_map] at hl2
    obtain ⟨b, hb, rfl⟩ := hl2
    exact percentByte_safe b (utf8Bytes_lt c b hb) x hxl2

theorem takeWhile_until_mark (xs ys : JStr) (h : ∀ c ∈ xs, c ≠ '?') :
    (xs ++ '?' :: ys).takeWhile (fun c => c != '?') = xs := by
  induction xs with
  | nil => simp
  | cons a as ih =>
    have ha : (a != '?') = true := by
      simpa using h a (List.mem_cons_self a as)
    rw [List.cons_append, List.takeWhile_cons, if_pos ha,
      ih fun c hc => h c (List.mem_cons_of_mem a hc)]

theorem dropWhile_until_mark (xs ys : JStr) (h : ∀ c ∈ xs, c ≠ '?') :
    (xs ++ '?' :: ys).dropWhile (fun c => c != '?') = '?' :: ys := by
  induction xs with
  | nil => simp
  | cons a as ih =>
    have ha : (a != '?') = true := by
      simpa using h a (List.mem_cons_self a as)
    rw [List.cons_append, List.dropWhile_cons, if_pos ha,
      ih fun c hc => h c (List.mem_cons_of_mem a hc)]

theorem foldl_stepSeg_no_slash (ys : JStr) (a : JStr)
    (h : ∀ c ∈ ys, c ≠ '/') : ys.foldl stepSeg a = a ++ ys := by
  induction ys generalizing a with
  | nil => simp
  | cons y ys ih =>
    have hy : (y == '/') = false := by
      simpa using h y (List.mem_cons_self y ys)
    rw [List.foldl_cons, stepSeg, hy]
    simp only [Bool.false_eq_true, if_false]
    rw [ih _ fun c hc => h c (List.mem_cons_of_mem y hc), List.append_assoc]
    rfl

theorem lastSeg_matrix_path (zs : JStr) (h : ∀ c ∈ zs, c ≠ '/') :
    lastSeg ("/queues/matrix/".data ++ zs) = zs := by
  rw [lastSeg, List.foldl_append]
  have h0 : List.foldl stepSeg [] "/queues/matrix/".data = [] := by decide
  rw [h0]
  simpa using foldl_stepSeg_no_slash zs [] h

/-- C9: for every queue identifier and every summary state with an active
date range, the pushed detail address has the URL-escaped identifier as
its final path segment and the two active dates, form-encoded, as its
query string.  Both the identifier-cell click and the View Details button
push this same address. -/
theorem view_details_navigation_spec (st : SummaryState) (qid : JStr)
    (s e : Day) (hs : st.startDate = some s) (he : st.endDate = some e) :
    pathPart (handleViewDetailsUrl st qid) =
      "/queues/matrix/".data ++ encodeURIComponent qid ∧
    lastSeg (pathPart (handleViewDetailsUrl st qid)) =
      encodeURIComponent qid ∧
    queryPart (handleViewDetailsUrl st qid) =
      formEncodePairs [("startDate".data, formatYMD s),
                       ("endDate".data, formatYMD e)] := by
  have hsafe := encodeURIComponent_safe qid
  have hnoq : ∀ c ∈ "/queues/matrix/".data ++ encodeURIComponent qid,
      c ≠ '?' := by
    intro c hc
    rcases List.mem_append.mp hc with h1 | h2
    · have : ∀ c ∈ "/queues/matrix/".data, c ≠ '?' := by decide
      exact this c h1
    · exact (hsafe c h2).2
  have hurl : handleViewDetailsUrl st qid =
      ("/queues/matrix/".data ++ encodeURIComponent qid)
        ++ '?' :: formEncodePairs (dateParams st) := by
    rw [handleViewDetailsUrl, List.append_assoc]
  have hpath : pathPart (handleViewDetailsUrl st qid) =
      "/queues/matrix/".data ++ encodeURIComponent qid := by
    rw [hurl, pathPart, takeWhile_until_mark _ _ hnoq]
  refine ⟨hpath, ?_, ?_⟩
  · rw [hpath]
    exact lastSeg_matrix_path _ fun c hc => (hsafe c hc).1
  · rw [hurl, queryPart, dropWhile_until_mark _ _ hnoq, List.drop_one,
      List.tail_cons, dateParams, hs, he]
    rfl

theorem view_details_navigation_check :
    stW.startDate = some 20707 ∧ stW.endDate = some 20737 ∧
    lastSeg (pathPart (handleViewDetailsUrl stW "Q1".data)) =
      encodeURIComponent "Q1".data ∧
    queryPart (handleViewDetailsUrl stW "Q1".data) =
      formEncodePairs [("startDate".data, formatYMD 20707),
                       ("endDate".data, formatYMD 20737)] :=
  ⟨rfl, rfl,
   (view_details_navigation_spec stW "Q1".data 20707 20737 rfl rfl).2.1,
   (view_details_navigation_spec stW "Q1".data 20707 20737 rfl rfl).2.2⟩

/- --------------------------------- which queue do the tiles belong to? -/

/-- An event belongs to queue identifier q when it is the settlement of a
fetch whose closure captured q; navigations to other identifiers are
excluded. -/
def DetailEvent.forQueue (q : JStr) : DetailEvent → Prop
  | .navigate _ => False
  | .settleAgg reqId _ => reqId = q
  | .settleRec reqId _ => reqId = q

theorem detailRecSettle_queueData (st : DetailState)
    (o : FetchOutcome QueueDetailData) :
    (detailRecSettle st o).state.queueData = st.queueData := by
  cases o <;> rfl

theorem stepDetail_inv (q : JStr) (s : DetailSys) (e : DetailEvent)
    (he : e.forQueue q) (h1 : s.view.queueId = q)
    (h2 : ∀ row, s.view.queueData = some row → row.queue_id = q) :
    (stepDetail s e).view.queueId = q ∧
    ∀ row, (stepDetail s e).view.queueData = some row →
      row.queue_id = q := by
  cases e with
  | navigate q2 => exact absurd he id
  | settleAgg reqId o =>
    subst he
    rw [stepDetail]
    by_cases hp : reqId ∈ s.pendingAgg
    · rw [if_pos hp]
      cases o with
      | ok r =>
        refine ⟨h1, ?_⟩
        intro row hrow
        have hfind : r.data.find? (fun x => x.queue_id == reqId) =
            some row := hrow
        have hbeq := List.find?_some hfind
        exact eq_of_beq hbeq
      | httpError m => exact ⟨h1, h2⟩
      | netError m => exact ⟨h1, h2⟩
      | jsonError m => exact ⟨h1, h2⟩
    · rw [if_neg hp]
      exact ⟨h1, h2⟩
  | settleRec reqId o =>
    subst he
    rw [stepDetail]
    by_cases hp : reqId ∈ s.pendingRec
    · rw [if_pos hp]
      cases o <;> exact ⟨h1, h2⟩
    · rw [if_neg hp]
      exact ⟨h1, h2⟩

theorem runDetail_inv (q : JStr) (es : List DetailEvent) (s : DetailSys)
    (h : ∀ e ∈ es, e.forQueue q) (h1 : s.view.queueId = q)
    (h2 : ∀ row, s.view.queueData = some row → row.queue_id = q) :
    (runDetail s es).view.queueId = q ∧
    ∀ row, (runDetail s es).view.queueData = some row →
      row.queue_id = q := by
  induction es generalizing s with
  | nil => exact ⟨h1, h2⟩
  | cons e es ih =>
    have hs := stepDetail_inv q s e (h e (List.mem_cons_self e es)) h1 h2
    exact ih (stepDetail s e) (fun x hx => h x (List.mem_cons_of_mem e hx))
      hs.1 hs.2

/-- C10 amended: on a detail page mounted at queue identifier q, as long
as every delivered event settles a fetch issued for q itself (no
navigation to another identifier interleaves), the held summary row, when
non-null, always carries queue_id q, the identifier of the path — the
tiles never show another queue.  Without that restriction the equality
can fail: a row fetched for the previous identifier survives a
navigation, see the counterexample run. -/
theorem detail_tiles_single_queue (q : JStr) (es : List DetailEvent)
    (h : ∀ e ∈ es, e.forQueue q) :
    (runDetail (initDetail q) es).view.queueId = q ∧
    ∀ row, (runDetail (initDetail q) es).view.queueData = some row →
      row.queue_id = q :=
  runDetail_inv q es (initDetail q) h rfl
    (fun row h0 => by simp [initDetail] at h0)

/-- The aggregate response holding only the row of queue Q1. -/
def respOnlyQ1 : APIResponse QueueData :=
  { queryExecutionId := "exec-1".data, status := "SUCCEEDED".data
    executionTime := 3, data := [qRow1]
    columns := ["queue_id".data], rowCount := 1 }

theorem detail_tiles_single_queue_check :
    (∀ e ∈ [DetailEvent.settleAgg "Q1".data (.ok respOnlyQ1)],
      e.forQueue "Q1".data) ∧
    (runDetail (initDetail "Q1".data)
      [DetailEvent.settleAgg "Q1".data (.ok respOnlyQ1)]).view.queueId =
      "Q1".data ∧
    qRow1.queue_id = "Q1".data :=
  ⟨by simp [DetailEvent.forQueue],
   (detail_tiles_single_queue "Q1".data _
     (by simp [DetailEvent.forQueue])).1,
   (detail_tiles_single_queue "Q1".data
     [DetailEvent.settleAgg "Q1".data (.ok respOnlyQ1)]
     (by simp [DetailEvent.forQueue])).2 qRow1 (by decide)⟩

/-- The run refuting C10 as stated: the page is mounted at Q1 and its
aggregate fetch succeeds, the user navigates client-side to the detail
page of Q2, and the aggregate fetch issued for Q2 fails on the network.
Every settlement is of a request actually issued. -/
def mismatchTrace : List DetailEvent :=
  [ .settleAgg "Q1".data (.ok respOnlyQ1),
    .navigate "Q2".data,
    .settleAgg "Q2".data (.netError "Failed to fetch".data) ]

/-- C10 counterexample: after the run above the path identifier is Q2,
the loading flag is clear, and the summary tiles render the row of Q1 —
a held row whose queue_id differs from the identifier read from the
navigation path, refuting the claim that this can happen under no
sequence of fetch settlements. -/
theorem detail_tiles_mismatch_run :
    (runDetail (initDetail "Q1".data) mismatchTrace).view.queueId =
      "Q2".data ∧
    (runDetail (initDetail "Q1".data) mismatchTrace).view.queueData =
      some qRow1 ∧
    renderSummarySection (runDetail (initDetail "Q1".data)
      mismatchTrace).view = .tiles qRow1 ∧
    qRow1.queue_id ≠
      (runDetail (initDetail "Q1".data) mismatchTrace).view.queueId := by
  decide
